import Mathlib

/-!
Shallow embedding of the KUKU-YETU poultry e-commerce backend
(`src/server.js`, `src/unnamed/part_000`, `src/unnamed/part_001`: three
near-duplicate Express/PostgreSQL iterations of the same REST service).

Modelling conventions:
* The relational store is a `DB` value with one list of rows per table,
  mirroring the `CREATE TABLE` schemas shared by all three iterations.
* `DECIMAL` money columns are modelled as `Int` (SQL `SUM` over DECIMAL is
  exact), `TIMESTAMP` columns and `Date.now()` as `Nat` milliseconds.
* A request handler is a pure function `DB → inputs → response × DB`;
  `CURRENT_TIMESTAMP` / `Date.now()` become an explicit `now` argument and
  `Math.random().toString(36).substr(2, 9)` an explicit string argument.
* Nullable columns and optional JSON body fields are `Option` values;
  JavaScript truthiness tests (`!x`, `x || d`) are modelled by `truthyS`,
  `truthyN`, `jsOrS`, `jsOrN` at the field's expected type.
* HTTP outcomes are per-endpoint inductive types; each constructor's doc
  comment records the HTTP status code it stands for.
-/

namespace KukuYetu

/-- A row of the `products` table. -/
structure ProductRow where
  id : String
  title : String
  description : String
  type : String
  price : Int
  quantity : Int
  available : Bool
  images : List String
  created_at : Nat
  updated_at : Nat
deriving DecidableEq

/-- A row of the `orders` table.  `latitude`/`longitude`,
`transaction_id` and `estimated_delivery` are nullable columns. -/
structure OrderRow where
  id : String
  customer_name : String
  email : String
  phone : String
  location : String
  latitude : Option Int
  longitude : Option Int
  delivery_notes : String
  items : String
  subtotal : Int
  delivery_fee : Int
  total : Int
  status : String
  payment_verified : Bool
  transaction_id : Option String
  estimated_delivery : Option Nat
  created_at : Nat
  updated_at : Nat
deriving DecidableEq

/-- A row of the `payments` table. -/
structure PaymentRow where
  id : String
  order_id : String
  amount : Int
  currency : String
  transaction_id : Option String
  status : String
  lipiana_response : Option String
  verified_at : Option Nat
  created_at : Nat
deriving DecidableEq

/-- The persistent store: the three tables the order/payment workflow
touches (`admin_users` plays no part in the claims). -/
structure DB where
  products : List ProductRow
  orders : List OrderRow
  payments : List PaymentRow
deriving DecidableEq

/-- JavaScript truthiness of an optional string field: `undefined`/`null`
and the empty string are falsy. -/
def truthyS : Option String → Bool
  | none => false
  | some s => !(s == "")

/-- JavaScript truthiness of an optional numeric field: `undefined`/`null`
and `0` are falsy. -/
def truthyN : Option Int → Bool
  | none => false
  | some n => !(n == 0)

/-- JavaScript `v || d` for a string-typed field. -/
def jsOrS (v : Option String) (d : String) : String :=
  if truthyS v then v.getD d else d

/-- JavaScript `v || d` for a number-typed field. -/
def jsOrN (v : Option Int) (d : Int) : Int :=
  if truthyN v then v.getD d else d

/-- The JSON body of `POST /api/orders`.  `items` is the serialized
line-items payload (an opaque blob in every iteration). -/
structure OrderReq where
  customerName : Option String
  email : Option String
  phone : Option String
  location : Option String
  latitude : Option Int
  longitude : Option Int
  deliveryNotes : Option String
  items : Option String
  subtotal : Option Int
  deliveryFee : Option Int
  total : Option Int
deriving DecidableEq

/-- The generated order identifier
`ORD-Date.now()-Math.random().toString(36).substr(2, 9)`. -/
def mkOrderId (now : Nat) (rand : String) : String :=
  "ORD-" ++ toString now ++ "-" ++ rand

/-- The generated transaction identifier `TXN-...` built the same way. -/
def mkTxnId (now : Nat) (rand : String) : String :=
  "TXN-" ++ toString now ++ "-" ++ rand

/-- Outcome of `POST /api/orders`. -/
inductive CreateOrderResp where
  /-- 201 with the `RETURNING *` row. -/
  | created (row : OrderRow)
  /-- 400 `Missing required fields`. -/
  | badRequest
  /-- 500, a store error (e.g. NOT NULL or primary-key violation) caught
  by the handler's `catch`. -/
  | storeError
deriving DecidableEq

/-- `POST /api/orders` of `src/unnamed/part_001` (lines 208-263): checks
truthiness of `customerName`, `email`, `phone`, `location`, `items`,
`total` (the JS guard is `if (!a || !b || ...) return 400`; stated here in
the equivalent positive form), then inserts with defaults
`subtotal || 0`, `deliveryFee || 200`, `latitude || 0`, `longitude || 0`,
`deliveryNotes || ''`, a fresh `ORD-`/`TXN-` pair, and the schema defaults
`status='pending'`, `payment_verified=false`, `estimated_delivery=NULL`.
A primary-key collision on the generated id surfaces as a caught store
error (500). -/
def part001_createOrder (db : DB) (req : OrderReq) (now : Nat)
    (randO randT : String) : CreateOrderResp × DB :=
  if truthyS req.customerName && truthyS req.email && truthyS req.phone &&
      truthyS req.location && req.items.isSome && truthyN req.total then
    let id := mkOrderId now randO
    if db.orders.any (fun o => o.id == id) then
      (.storeError, db)
    else
      let row : OrderRow :=
        { id := id
          customer_name := req.customerName.getD ""
          email := req.email.getD ""
          phone := req.phone.getD ""
          location := req.location.getD ""
          latitude := some (jsOrN req.latitude 0)
          longitude := some (jsOrN req.longitude 0)
          delivery_notes := jsOrS req.deliveryNotes ""
          items := req.items.getD ""
          subtotal := jsOrN req.subtotal 0
          delivery_fee := jsOrN req.deliveryFee 200
          total := req.total.getD 0
          status := "pending"
          payment_verified := false
          transaction_id := some (mkTxnId now randT)
          estimated_delivery := none
          created_at := now
          updated_at := now }
      (.created row, { db with orders := db.orders ++ [row] })
  else
    (.badRequest, db)

/-- `POST /api/orders` of `src/server.js` (lines 351-385): no field
validation at all; the INSERT passes the body fields straight through, so
an absent required column (NOT NULL in the schema: `customer_name`,
`email`, `phone`, `location`, `items`, `subtotal`, `delivery_fee`,
`total`) makes the store throw, which the handler's `catch` turns into a
500.  `deliveryNotes || ''` is the only defaulted field;
`latitude`/`longitude` are stored as given (nullable columns). -/
def serverJs_createOrder (db : DB) (req : OrderReq) (now : Nat)
    (randO : String) : CreateOrderResp × DB :=
  if req.customerName.isNone || req.email.isNone || req.phone.isNone ||
      req.location.isNone || req.items.isNone || req.subtotal.isNone ||
      req.deliveryFee.isNone || req.total.isNone then
    (.storeError, db)
  else
    let id := mkOrderId now randO
    if db.orders.any (fun o => o.id == id) then
      (.storeError, db)
    else
      let row : OrderRow :=
        { id := id
          customer_name := req.customerName.getD ""
          email := req.email.getD ""
          phone := req.phone.getD ""
          location := req.location.getD ""
          latitude := req.latitude
          longitude := req.longitude
          delivery_notes := jsOrS req.deliveryNotes ""
          items := req.items.getD ""
          subtotal := req.subtotal.getD 0
          delivery_fee := req.deliveryFee.getD 0
          total := req.total.getD 0
          status := "pending"
          payment_verified := false
          transaction_id := none
          estimated_delivery := none
          created_at := now
          updated_at := now }
      (.created row, { db with orders := db.orders ++ [row] })

/-- Outcome of `PATCH /api/orders/:id/status`. -/
inductive StatusResp where
  /-- 200 with the `RETURNING *` row. -/
  | ok (row : OrderRow)
  /-- 400 `Invalid status`. -/
  | badRequest
  /-- 404 `Order not found`. -/
  | notFound
deriving DecidableEq

/-- The single UPDATE shared by every status handler:
`SET status = $1, estimated_delivery = $2, updated_at = CURRENT_TIMESTAMP
WHERE id = $3`.  Note that the `estimated_delivery` column is always
written, so a `NULL` argument clears it. -/
def updateOrderStatusRows (orders : List OrderRow) (id status : String)
    (est : Option Nat) (now : Nat) : List OrderRow :=
  orders.map fun o =>
    if o.id == id then
      { o with status := status, estimated_delivery := est, updated_at := now }
    else o

/-- `PATCH /api/orders/:id/status` of `src/unnamed/part_001` (lines
285-328); `src/unnamed/part_000` (lines 496-539) is the same handler.
Validates `['pending','confirmed','delivered','cancelled'].includes(status)`,
computes `estimatedDelivery = now + 45*60*1000` only for `confirmed`
(otherwise `null`), runs the UPDATE, 404 when no row matched. -/
def part001_updateStatus (db : DB) (id status : String) (now : Nat) :
    StatusResp × DB :=
  if status = "pending" ∨ status = "confirmed" ∨ status = "delivered" ∨
      status = "cancelled" then
    let est := if status == "confirmed" then some (now + 45 * 60 * 1000) else none
    let orders' := updateOrderStatusRows db.orders id status est now
    match orders'.find? (fun o => o.id == id) with
    | none => (.notFound, db)
    | some row => (.ok row, { db with orders := orders' })
  else
    (.badRequest, db)

/-- `src/unnamed/part_000` lines 496-539: the handler is identical to the
part_001 one. -/
def part000_updateStatus : DB → String → String → Nat → StatusResp × DB :=
  part001_updateStatus

/-- `PATCH /api/orders/:id/status` of `src/server.js` (lines 387-416): no
validation of the submitted status value; any string is written, with the
same always-written `estimated_delivery` column. -/
def serverJs_updateStatus (db : DB) (id status : String) (now : Nat) :
    StatusResp × DB :=
  let est := if status == "confirmed" then some (now + 45 * 60 * 1000) else none
  let orders' := updateOrderStatusRows db.orders id status est now
  match orders'.find? (fun o => o.id == id) with
  | none => (.notFound, db)
  | some row => (.ok row, { db with orders := orders' })

/-- Outcome of `POST /api/payments/verify/:orderId`. -/
inductive VerifyResp where
  /-- 200 `{success: true, orderId, status}` (part_001 additionally
  returns the re-fetched order row as `data`). -/
  | success (orderId status : String) (data : Option OrderRow)
  /-- 400 `Payment verification failed`. -/
  | failed
  /-- 404 `Order not found` (part_001 only). -/
  | notFound
  /-- 500, a store error caught by the handler's `catch`. -/
  | storeError
deriving DecidableEq

/-- The `UPDATE orders SET payment_verified = true, status = 'confirmed',
updated_at = CURRENT_TIMESTAMP WHERE id = $1` write of the verify
handlers. -/
def verifyOrdersWrite (orders : List OrderRow) (oid : String) (now : Nat) :
    List OrderRow :=
  orders.map fun o =>
    if o.id == oid then
      { o with payment_verified := true, status := "confirmed", updated_at := now }
    else o

/-- The `UPDATE payments SET status = 'completed', verified_at =
CURRENT_TIMESTAMP WHERE order_id = $1` write of the verify handlers. -/
def verifyPaymentsWrite (payments : List PaymentRow) (oid : String)
    (now : Nat) : List PaymentRow :=
  payments.map fun p =>
    if p.order_id == oid then
      { p with status := "completed", verified_at := some now }
    else p

/-- `POST /api/payments/verify/:orderId` of `src/server.js` (lines
472-516): no order-existence check; the simulated gateway decision
`Math.random() > 0.1` is the explicit `verified` argument.  On success it
updates the orders row first, then every payments row with the order id,
and answers `{success: true, orderId, status: 'confirmed'}`; on failure it
answers 400 and writes nothing. -/
def serverJs_verifyPayment (db : DB) (oid : String) (verified : Bool)
    (now : Nat) : VerifyResp × DB :=
  if verified then
    let orders' := verifyOrdersWrite db.orders oid now
    let payments' := verifyPaymentsWrite db.payments oid now
    (.success oid "confirmed" none, { db with orders := orders', payments := payments' })
  else
    (.failed, db)

/-- `src/unnamed/part_000` lines 586-628: the handler is identical to the
server.js one. -/
def part000_verifyPayment : DB → String → Bool → Nat → VerifyResp × DB :=
  serverJs_verifyPayment

/-- The server.js verify handler with the store's failure point made
explicit: the two UPDATEs are two independent `await pool.query` calls
with no transactional scope, so each can throw; `okWrites` is how many of
them the store completes before failing.  A throw is caught and reported
as 500, but writes already executed stay committed. -/
def serverJs_verifyPaymentWithFailure (db : DB) (oid : String)
    (verified : Bool) (now : Nat) (okWrites : Nat) : VerifyResp × DB :=
  if verified then
    if okWrites = 0 then
      (.storeError, db)
    else
      let orders' := verifyOrdersWrite db.orders oid now
      if okWrites = 1 then
        (.storeError, { db with orders := orders' })
      else
        let payments' := verifyPaymentsWrite db.payments oid now
        (.success oid "confirmed" none,
          { db with orders := orders', payments := payments' })
  else
    (.failed, db)

/-- `POST /api/payments/verify/:orderId` of `src/unnamed/part_001` (lines
381-445): first checks the order exists (404 otherwise); the simulated
verification is `const paymentVerified = true`, so the success branch
always runs: it updates every payments row with the order id, then the
orders row, re-fetches the updated order and returns it. -/
def part001_verifyPayment (db : DB) (oid : String) (now : Nat) :
    VerifyResp × DB :=
  match db.orders.find? (fun o => o.id == oid) with
  | none => (.notFound, db)
  | some _ =>
    let payments' := verifyPaymentsWrite db.payments oid now
    let orders' := verifyOrdersWrite db.orders oid now
    (.success oid "confirmed" (orders'.find? (fun o => o.id == oid)),
      { db with orders := orders', payments := payments' })

/-- One step of the `ORDER BY created_at DESC` presentation order:
insertion into an already descending list. -/
def insertByCreatedDesc (p : ProductRow) : List ProductRow → List ProductRow
  | [] => [p]
  | q :: qs =>
    if q.created_at ≤ p.created_at then p :: q :: qs
    else q :: insertByCreatedDesc p qs

/-- `ORDER BY created_at DESC` as an insertion sort. -/
def sortByCreatedDesc : List ProductRow → List ProductRow
  | [] => []
  | p :: ps => insertByCreatedDesc p (sortByCreatedDesc ps)

/-- `GET /api/products` of `src/server.js` (lines 207-217);
`src/unnamed/part_000` (lines 250-266) runs the same query:
`SELECT * FROM products ORDER BY created_at DESC` — no availability
filter. -/
def serverJs_getProducts (db : DB) : List ProductRow :=
  sortByCreatedDesc db.products

/-- `src/unnamed/part_000` lines 250-266: same unfiltered listing as
server.js. -/
def part000_getProducts : DB → List ProductRow :=
  serverJs_getProducts

/-- `GET /api/products` of `src/unnamed/part_001` (lines 160-176):
`SELECT * FROM products WHERE available = true ORDER BY created_at DESC`. -/
def part001_getProducts (db : DB) : List ProductRow :=
  sortByCreatedDesc (db.products.filter fun p => p.available)

/-- SQL `SUM` over the `total` column of a set of rows: `NULL` on the
empty set, otherwise the exact sum. -/
def sqlSum : List Int → Option Int
  | [] => none
  | x :: xs => some (x :: xs).sum

/-- The body of `GET /api/dashboard/stats` (identical queries in all three
iterations). -/
structure DashboardStats where
  totalOrders : Nat
  totalRevenue : Int
  pendingOrders : Nat
  totalProducts : Nat
deriving DecidableEq

/-- `GET /api/dashboard/stats` (`src/server.js` lines 570-598,
`src/unnamed/part_000` lines 631-662, `src/unnamed/part_001` lines
448-480 — the four aggregate queries are the same in all three):
`COUNT(*)` over orders, `COALESCE(SUM(total), 0)` over orders with
`status IN ('confirmed', 'delivered')`, `COUNT(*)` over pending orders,
`COUNT(*)` over products. -/
def dashboardStats (db : DB) : DashboardStats :=
  { totalOrders := db.orders.length
    totalRevenue :=
      (sqlSum ((db.orders.filter fun o =>
        o.status == "confirmed" || o.status == "delivered").map
          fun o => o.total)).getD 0
    pendingOrders := (db.orders.filter fun o => o.status == "pending").length
    totalProducts := db.products.length }

/-! ## General lemmas about the embedding -/

theorem mem_insertByCreatedDesc {a p : ProductRow} {l : List ProductRow} :
    a ∈ insertByCreatedDesc p l ↔ a = p ∨ a ∈ l := by
  induction l with
  | nil => simp [insertByCreatedDesc]
  | cons q qs ih =>
    simp only [insertByCreatedDesc]
    split
    · simp
    · simp [ih]
      tauto

theorem mem_sortByCreatedDesc {a : ProductRow} {l : List ProductRow} :
    a ∈ sortByCreatedDesc l ↔ a ∈ l := by
  induction l with
  | nil => simp [sortByCreatedDesc]
  | cons p ps ih => simp [sortByCreatedDesc, mem_insertByCreatedDesc, ih]

theorem sqlSum_getD (l : List Int) : (sqlSum l).getD 0 = l.sum := by
  cases l <;> simp [sqlSum]

/-- A conditional row rewrite over a table is the identity when no row
satisfies the condition. -/
theorem map_update_eq_self {α : Type} (l : List α) (f : α → α) (c : α → Bool)
    (h : ∀ a ∈ l, c a = false) :
    (l.map fun a => if c a then f a else a) = l := by
  induction l with
  | nil => rfl
  | cons x xs ih =>
    simp only [List.map_cons, h x (List.mem_cons_self x xs), ih
      (fun a ha => h a (List.mem_cons_of_mem x ha)), if_neg]
    simp [h x (List.mem_cons_self x xs)]

/-! ## C6 — dashboard revenue -/

/-- An empty store, used as a concrete evaluation point. -/
def dbEmpty : DB := { products := [], orders := [], payments := [] }

/-- C6: the dashboard summary's total revenue equals the sum of `total`
over exactly the orders whose status is confirmed or delivered, and when
no such order exists the reported revenue is 0 (the `COALESCE` of the
`NULL` sum), not null and not an error. -/
theorem C6_dashboard_revenue (db : DB) :
    (dashboardStats db).totalRevenue =
      ((db.orders.filter fun o =>
        o.status == "confirmed" || o.status == "delivered").map
          fun o => o.total).sum ∧
    ((db.orders.filter fun o =>
        o.status == "confirmed" || o.status == "delivered") = [] →
      (dashboardStats db).totalRevenue = 0) := by
  refine ⟨by simp [dashboardStats, sqlSum_getD], fun h => ?_⟩
  simp [dashboardStats, h, sqlSum]

/-- Witness for C6 at the empty store: no confirmed or delivered order
exists and the revenue evaluates to 0. -/
theorem C6_dashboard_revenue_witness :
    (dashboardStats dbEmpty).totalRevenue = 0 :=
  (C6_dashboard_revenue dbEmpty).2 rfl

/-! ## C8 — product listing vs availability -/

/-- An unavailable product, visible in the server.js/part_000 listing. -/
def productUnavailable : ProductRow :=
  { id := "p1", title := "Whole Turkey", description := "d", type := "other",
    price := 4500, quantity := 10, available := false, images := [],
    created_at := 1, updated_at := 1 }

/-- A catalog holding only the unavailable product. -/
def dbCatalog : DB := { products := [productUnavailable], orders := [], payments := [] }

/-- C8 counterexample: in the server.js iteration (and the identical
part_000 query) `GET /api/products` has no availability filter, so a
product with `available = false` appears in the listing — the claim that
every listed product has the availability flag set to true fails there. -/
theorem C8_counterexample_unfiltered_listing :
    productUnavailable ∈ serverJs_getProducts dbCatalog ∧
    productUnavailable.available = false := by
  constructor
  · simp [serverJs_getProducts, dbCatalog, sortByCreatedDesc, insertByCreatedDesc]
  · rfl

/-- C8 (amended): in part_001 the listing returns exactly the available
products — every listed product has `available = true` and every
available product is listed; in server.js and part_000 the listing
returns every product regardless of availability. -/
theorem C8_products_listing_amended (db : DB) (p : ProductRow) :
    (p ∈ part001_getProducts db ↔ p ∈ db.products ∧ p.available = true) ∧
    (p ∈ serverJs_getProducts db ↔ p ∈ db.products) := by
  constructor
  · simp [part001_getProducts, mem_sortByCreatedDesc, List.mem_filter]
  · simp [serverJs_getProducts, mem_sortByCreatedDesc]

/-! ## C2 — estimated delivery on status updates -/

/-- The row a successful status UPDATE returns carries exactly the
written status, estimated-delivery argument and timestamp. -/
theorem find?_updateOrderStatusRows {orders : List OrderRow}
    {id status : String} {est : Option Nat} {now : Nat} {row : OrderRow}
    (h : (updateOrderStatusRows orders id status est now).find?
          (fun o => o.id == id) = some row) :
    row.status = status ∧ row.estimated_delivery = est ∧
      row.updated_at = now := by
  have hp := List.find?_some h
  have hm := List.mem_of_find?_eq_some h
  rw [updateOrderStatusRows] at hm
  obtain ⟨o, _, he⟩ := List.mem_map.mp hm
  by_cases hc : (o.id == id) = true
  · rw [if_pos hc] at he
    subst he
    exact ⟨rfl, rfl, rfl⟩
  · rw [if_neg hc] at he
    subst he
    exact absurd hp hc

/-- An order whose estimated-delivery field is already set, used to watch
what a later status update does to it. -/
def orderWithEta : OrderRow :=
  { id := "o1", customer_name := "Jane", email := "j@x.co", phone := "0712",
    location := "Nairobi", latitude := none, longitude := none,
    delivery_notes := "", items := "[]", subtotal := 1200,
    delivery_fee := 200, total := 1400, status := "confirmed",
    payment_verified := true, transaction_id := none,
    estimated_delivery := some 999, created_at := 10, updated_at := 10 }

/-- A store holding just `orderWithEta`. -/
def dbEta : DB := { products := [], orders := [orderWithEta], payments := [] }

/-- C2 counterexample: updating `orderWithEta` (whose estimated delivery
is set to 999) to `delivered` does not leave the field untouched — the
UPDATE always writes the `estimated_delivery` column, here with `NULL`,
so the stored value becomes `none`, not the prior `some 999`. -/
theorem C2_counterexample_update_clears_estimate :
    orderWithEta.estimated_delivery = some 999 ∧
    ((part001_updateStatus dbEta "o1" "delivered" 5000).2.orders.map
      fun o => o.estimated_delivery) = [none] := by
  decide

/-- C2 (amended): for every existing order, updating its status to
`confirmed` sets estimated-delivery to the request time plus the fixed
45-minute offset, while updating it to any other accepted status CLEARS
the order's estimated-delivery field to null (the column is written on
every status update), rather than leaving it untouched. -/
theorem C2_status_estimate_amended (db : DB) (id status : String)
    (now : Nat) (row : OrderRow)
    (hok : (part001_updateStatus db id status now).1 = StatusResp.ok row) :
    (status = "confirmed" →
      row.estimated_delivery = some (now + 45 * 60 * 1000)) ∧
    (status ≠ "confirmed" → row.estimated_delivery = none) := by
  simp only [part001_updateStatus] at hok
  split at hok
  · split at hok
    · exact absurd hok (by simp)
    case _ r heq =>
      simp only at hok
      cases hok
      have hfields := find?_updateOrderStatusRows heq
      constructor
      · intro hconf
        rw [hfields.2.1]
        simp [hconf]
      · intro hnconf
        rw [hfields.2.1]
        simp [hnconf]
  · exact absurd hok (by simp)

/-- The row produced by confirming `orderWithEta` at time 100. -/
def rowConfirmedAt100 : OrderRow :=
  { orderWithEta with
    status := "confirmed"
    estimated_delivery := some 2700100
    updated_at := 100 }

/-- Witness for C2 (amended): confirming the concrete order at time 100
yields a row whose estimated delivery is 100 + 45 minutes. -/
theorem C2_status_estimate_witness :
    rowConfirmedAt100.estimated_delivery = some (100 + 45 * 60 * 1000) :=
  (C2_status_estimate_amended dbEta "o1" "confirmed" 100 rowConfirmedAt100
    (by decide)).1 rfl

/-! ## C5 — status-value validation -/

/-- A pending order used as the update target. -/
def orderPending : OrderRow :=
  { orderWithEta with
    status := "pending"
    payment_verified := false
    estimated_delivery := none }

/-- A store holding just `orderPending`. -/
def dbPendingOrder : DB :=
  { products := [], orders := [orderPending], payments := [] }

/-- C5 counterexample: the server.js status handler performs no
validation, so submitting the out-of-enumeration value `shipped` is not
rejected with 400 — it is written to the order. -/
theorem C5_counterexample_any_status_written :
    (serverJs_updateStatus dbPendingOrder "o1" "shipped" 7).1 ≠
      StatusResp.badRequest ∧
    ((serverJs_updateStatus dbPendingOrder "o1" "shipped" 7).2.orders.map
      fun o => o.status) = ["shipped"] := by
  decide

/-- C5 (amended): in part_000 and part_001 the update-status operation
accepts exactly the four values pending, confirmed, delivered, cancelled
and fails with 400 without modifying the store for any other value; the
server.js iteration performs no such validation and never returns 400,
writing whatever value was submitted. -/
theorem C5_status_validation_amended (db : DB) (id status : String)
    (now : Nat) :
    (status ∉ (["pending", "confirmed", "delivered", "cancelled"] :
        List String) →
      part001_updateStatus db id status now = (StatusResp.badRequest, db)) ∧
    (status ∈ (["pending", "confirmed", "delivered", "cancelled"] :
        List String) →
      (part001_updateStatus db id status now).1 ≠ StatusResp.badRequest) ∧
    (serverJs_updateStatus db id status now).1 ≠ StatusResp.badRequest := by
  refine ⟨fun hnot => ?_, fun hmem => ?_, ?_⟩
  · have h : ¬(status = "pending" ∨ status = "confirmed" ∨
        status = "delivered" ∨ status = "cancelled") := by
      simpa using hnot
    simp [part001_updateStatus, h]
  · have hval : status = "pending" ∨ status = "confirmed" ∨
        status = "delivered" ∨ status = "cancelled" := by
      simpa using hmem
    simp only [part001_updateStatus, if_pos hval]
    split <;> simp
  · simp only [serverJs_updateStatus]
    split <;> simp

/-- Witness for C5 (amended): `shipped` is rejected by the validating
iterations with no state change, while `confirmed` is not rejected. -/
theorem C5_status_validation_witness :
    part001_updateStatus dbPendingOrder "o1" "shipped" 7 =
      (StatusResp.badRequest, dbPendingOrder) ∧
    (part001_updateStatus dbPendingOrder "o1" "confirmed" 7).1 ≠
      StatusResp.badRequest :=
  ⟨(C5_status_validation_amended dbPendingOrder "o1" "shipped" 7).1
      (by decide),
    (C5_status_validation_amended dbPendingOrder "o1" "confirmed" 7).2.1
      (by decide)⟩

/-! ## C3 — required fields of order creation -/

/-- An order-creation body with every required field present except
`phone`. -/
def reqMissingPhone : OrderReq :=
  { customerName := some "Jane", email := some "j@x.co", phone := none,
    location := some "Nairobi", latitude := none, longitude := none,
    deliveryNotes := none, items := some "[]", subtotal := some 1200,
    deliveryFee := some 200, total := some 1400 }

/-- C3 counterexample: in the server.js iteration creating an order with
a missing `phone` does not fail with a 400 ValidationError — there is no
field validation, the INSERT hits the NOT NULL constraint and the handler
reports a 500 store error (still persisting no row). -/
theorem C3_counterexample_missing_phone_is_500 :
    (serverJs_createOrder dbEmpty reqMissingPhone 77 "a1b2c3d4e").1 =
      CreateOrderResp.storeError ∧
    (serverJs_createOrder dbEmpty reqMissingPhone 77 "a1b2c3d4e").1 ≠
      CreateOrderResp.badRequest ∧
    (serverJs_createOrder dbEmpty reqMissingPhone 77 "a1b2c3d4e").2.orders
      = [] := by
  decide

/-- C3 (amended): when any of customer name, email, phone, location,
line items or total is missing, the part_001 iteration fails with a 400
ValidationError and persists no order row; the server.js iteration has no
field validation, so the same missing field surfaces as a 500 store error
from the NOT NULL constraint — likewise persisting no row, but not as a
400. -/
theorem C3_create_order_missing_field_amended (db : DB) (req : OrderReq)
    (now : Nat) (randO randT : String)
    (h : req.customerName = none ∨ req.email = none ∨ req.phone = none ∨
      req.location = none ∨ req.items = none ∨ req.total = none) :
    (part001_createOrder db req now randO randT).1 =
        CreateOrderResp.badRequest ∧
    (part001_createOrder db req now randO randT).2 = db ∧
    (serverJs_createOrder db req now randO).1 = CreateOrderResp.storeError ∧
    (serverJs_createOrder db req now randO).2 = db := by
  rcases h with h | h | h | h | h | h <;>
    simp [part001_createOrder, serverJs_createOrder, truthyS, truthyN, h]

/-- Witness for C3 (amended) at the concrete missing-phone request. -/
theorem C3_create_order_missing_field_witness :
    (part001_createOrder dbEmpty reqMissingPhone 77 "a1b2c3d4e" "f5g6h").1 =
        CreateOrderResp.badRequest ∧
    (part001_createOrder dbEmpty reqMissingPhone 77 "a1b2c3d4e" "f5g6h").2 =
        dbEmpty ∧
    (serverJs_createOrder dbEmpty reqMissingPhone 77 "a1b2c3d4e").1 =
        CreateOrderResp.storeError ∧
    (serverJs_createOrder dbEmpty reqMissingPhone 77 "a1b2c3d4e").2 =
        dbEmpty :=
  C3_create_order_missing_field_amended dbEmpty reqMissingPhone 77
    "a1b2c3d4e" "f5g6h" (Or.inr (Or.inr (Or.inl rfl)))

/-! ## C7 — creation defaults and identifier freshness -/

/-- C7: every successfully created order starts with status `pending` and
`payment_verified = false` (the schema defaults, not overridden by the
INSERT), and its identifier is fresh: it differs from every order already
in the ledger (a collision of the generated id would violate the primary
key, making the INSERT fail instead of reusing the id), so the id column
stays duplicate-free across creation calls. -/
theorem C7_create_order_defaults_and_fresh_id (db : DB) (req : OrderReq)
    (now : Nat) (randO randT : String) (row : OrderRow)
    (hids : (db.orders.map fun o => o.id).Nodup)
    (h : (part001_createOrder db req now randO randT).1 =
      CreateOrderResp.created row) :
    row.status = "pending" ∧ row.payment_verified = false ∧
    (∀ o ∈ db.orders, o.id ≠ row.id) ∧
    ((part001_createOrder db req now randO randT).2.orders.map
      fun o => o.id).Nodup := by
  by_cases hval : (truthyS req.customerName && truthyS req.email &&
      truthyS req.phone && truthyS req.location && req.items.isSome &&
      truthyN req.total) = true
  · by_cases hpk : (db.orders.any fun o => o.id == mkOrderId now randO) = true
    · simp [part001_createOrder, hval, hpk] at h
    · have hfresh : ∀ o ∈ db.orders, o.id ≠ mkOrderId now randO := by
        simpa [List.any_eq_true] using hpk
      simp only [part001_createOrder, if_pos hval] at h ⊢
      rw [if_neg hpk] at h ⊢
      simp only at h
      cases h
      refine ⟨rfl, rfl, fun o ho => hfresh o ho, ?_⟩
      simp only [List.map_append, List.map_cons, List.map_nil]
      rw [List.nodup_append]
      refine ⟨hids, List.nodup_singleton _, ?_⟩
      intro a ha hb
      simp only [List.mem_singleton] at hb
      obtain ⟨o, ho, rfl⟩ := List.mem_map.mp ha
      exact hfresh o ho hb
  · simp [part001_createOrder, hval] at h

/-- A fully valid order-creation body. -/
def reqValid : OrderReq :=
  { reqMissingPhone with phone := some "0712" }

/-- The row the valid creation persists at time 77 with random suffixes
`a1b2c3d4e` / `f5g6h`. -/
def rowCreated77 : OrderRow :=
  { id := "ORD-77-a1b2c3d4e", customer_name := "Jane", email := "j@x.co",
    phone := "0712", location := "Nairobi", latitude := some 0,
    longitude := some 0, delivery_notes := "", items := "[]",
    subtotal := 1200, delivery_fee := 200, total := 1400,
    status := "pending", payment_verified := false,
    transaction_id := some "TXN-77-f5g6h", estimated_delivery := none,
    created_at := 77, updated_at := 77 }

/-- Witness for C7 at the concrete valid request on the empty store. -/
theorem C7_create_order_defaults_witness :
    rowCreated77.status = "pending" ∧
    rowCreated77.payment_verified = false ∧
    (∀ o ∈ dbEmpty.orders, o.id ≠ rowCreated77.id) ∧
    ((part001_createOrder dbEmpty reqValid 77 "a1b2c3d4e" "f5g6h").2.orders.map
      fun o => o.id).Nodup :=
  C7_create_order_defaults_and_fresh_id dbEmpty reqValid 77 "a1b2c3d4e"
    "f5g6h" rowCreated77 (by decide) (by decide)

/-! ## C1 — atomicity of the dual verify-payment update -/

/-- A pending payment correlated to order `o1`. -/
def paymentPendingO1 : PaymentRow :=
  { id := "p1", order_id := "o1", amount := 1400, currency := "KES",
    transaction_id := some "TXN-10-z", status := "pending",
    lipiana_response := none, verified_at := none, created_at := 10 }

/-- A store with the pending order `o1` and its pending payment. -/
def dbOrderAndPayment : DB :=
  { products := [], orders := [orderPending], payments := [paymentPendingO1] }

/-- Sanity check of the failure-injection model: when the store completes
both writes, it agrees with the plain verify handler. -/
theorem verifyWithFailure_agrees_when_store_healthy (db : DB)
    (oid : String) (v : Bool) (now okWrites : Nat) (h : 2 ≤ okWrites) :
    serverJs_verifyPaymentWithFailure db oid v now okWrites =
      serverJs_verifyPayment db oid v now := by
  have h0 : okWrites ≠ 0 := by omega
  have h1 : okWrites ≠ 1 := by omega
  cases v <;>
    simp [serverJs_verifyPaymentWithFailure, serverJs_verifyPayment, h0, h1]

/-- C1: the two verify-payment writes are not a single atomic unit.  On
the concrete store holding order `o1` and its pending payment, a store
failure after the first of the two independent UPDATEs (okWrites = 1)
leaves the order confirmed and payment-verified while the payment row is
still pending — a partial update is observable, contradicting the
claimed all-or-nothing behaviour. -/
theorem C1_partial_update_observable :
    (serverJs_verifyPaymentWithFailure dbOrderAndPayment "o1" true 1000 1).1
      = VerifyResp.storeError ∧
    ((serverJs_verifyPaymentWithFailure dbOrderAndPayment "o1" true 1000
        1).2.orders.map fun o => (o.status, o.payment_verified)) =
      [("confirmed", true)] ∧
    ((serverJs_verifyPaymentWithFailure dbOrderAndPayment "o1" true 1000
        1).2.payments.map fun p => (p.status, p.verified_at)) =
      [("pending", (none : Option Nat))] := by
  decide

/-! ## C4 — idempotency of verify payment -/

/-- C4: re-verifying an already-confirmed order is not a no-op.  The
status fields do stay `confirmed`/`completed`, but the second call
re-runs both UPDATEs and overwrites `verified_at` (and the order's
`updated_at`) with the later time, so the terminal state after two calls
differs from the state after one — a second state change. -/
theorem C4_reverify_is_second_state_change :
    ((part001_verifyPayment dbOrderAndPayment "o1" 1000).2.payments.map
      fun p => p.verified_at) = [some 1000] ∧
    ((part001_verifyPayment
        (part001_verifyPayment dbOrderAndPayment "o1" 1000).2 "o1"
        2000).2.payments.map fun p => p.verified_at) = [some 2000] ∧
    (part001_verifyPayment
        (part001_verifyPayment dbOrderAndPayment "o1" 1000).2 "o1" 2000).2
      ≠ (part001_verifyPayment dbOrderAndPayment "o1" 1000).2 := by
  decide

/-! ## C9 — verify payment without an order-existence check -/

/-- The `UPDATE orders ... WHERE id` write touches nothing when no order
has the id. -/
theorem verifyOrdersWrite_eq_self {orders : List OrderRow} {oid : String}
    {now : Nat} (h : ∀ o ∈ orders, (o.id == oid) = false) :
    verifyOrdersWrite orders oid now = orders := by
  unfold verifyOrdersWrite
  exact map_update_eq_self orders
    (fun o =>
      { o with
        payment_verified := true
        status := "confirmed"
        updated_at := now })
    (fun o => o.id == oid) h

/-- The `UPDATE payments ... WHERE order_id` write touches nothing when
no payment references the id. -/
theorem verifyPaymentsWrite_eq_self {payments : List PaymentRow}
    {oid : String} {now : Nat}
    (h : ∀ p ∈ payments, (p.order_id == oid) = false) :
    verifyPaymentsWrite payments oid now = payments := by
  unfold verifyPaymentsWrite
  exact map_update_eq_self payments
    (fun p => { p with status := "completed", verified_at := some now })
    (fun p => p.order_id == oid) h

/-- C9: in the server.js iteration (part_000's handler is the same
function) verify payment never checks that the order exists.  For an
order id absent from the ledger — whence, by the `payments.order_id`
foreign key, also referenced by no payment — a successful verification
decision returns the 200 success response reporting status `confirmed`
while updating no order row and no payment row, instead of returning 404
NotFound. -/
theorem C9_verify_skips_existence_check (db : DB) (oid : String) (now : Nat)
    (hno : ∀ o ∈ db.orders, o.id ≠ oid)
    (hfk : ∀ p ∈ db.payments, ∃ o ∈ db.orders, o.id = p.order_id) :
    serverJs_verifyPayment db oid true now =
      (VerifyResp.success oid "confirmed" none, db) := by
  have horders : ∀ o ∈ db.orders, (o.id == oid) = false := by
    intro o ho
    simpa using hno o ho
  have hpays : ∀ p ∈ db.payments, (p.order_id == oid) = false := by
    intro p hp
    obtain ⟨o, ho, he⟩ := hfk p hp
    have hne : p.order_id ≠ oid := fun hc => hno o ho (he.trans hc)
    simpa using hne
  show (VerifyResp.success oid "confirmed" none,
      { db with
        orders := verifyOrdersWrite db.orders oid now
        payments := verifyPaymentsWrite db.payments oid now }) =
    (VerifyResp.success oid "confirmed" none, db)
  rw [verifyOrdersWrite_eq_self horders, verifyPaymentsWrite_eq_self hpays]

/-- An unrelated order `o2`. -/
def orderOther : OrderRow := { orderPending with id := "o2" }

/-- A payment referencing the unrelated order `o2`. -/
def paymentForOther : PaymentRow :=
  { paymentPendingO1 with id := "p2", order_id := "o2" }

/-- A store whose ledger does not contain order id `o1`. -/
def dbOtherOrder : DB :=
  { products := [], orders := [orderOther], payments := [paymentForOther] }

/-- Witness for C9: verifying the absent order id `o1` on the concrete
store answers 200 `confirmed` and changes nothing. -/
theorem C9_verify_skips_existence_check_witness :
    serverJs_verifyPayment dbOtherOrder "o1" true 50 =
      (VerifyResp.success "o1" "confirmed" none, dbOtherOrder) :=
  C9_verify_skips_existence_check dbOtherOrder "o1" 50 (by decide) (by decide)

/-! ## C10 — verify payment updates every matching payment row -/

/-- C10: a successful verify updates every payments row whose `order_id`
matches: in the post-state all matching rows carry status `completed`
with the verification timestamp, the completed image of every previously
matching row is present, and no row is dropped. -/
theorem C10_verify_updates_all_matching_payments (db : DB) (oid : String)
    (now : Nat) (hord : ∃ o ∈ db.orders, o.id = oid) :
    (∀ q ∈ (part001_verifyPayment db oid now).2.payments,
      q.order_id = oid → q.status = "completed" ∧ q.verified_at = some now) ∧
    (∀ p ∈ db.payments, p.order_id = oid →
      { p with status := "completed", verified_at := some now } ∈
        (part001_verifyPayment db oid now).2.payments) ∧
    (part001_verifyPayment db oid now).2.payments.length =
      db.payments.length := by
  obtain ⟨o, ho, hid⟩ := hord
  have hfind : (db.orders.find? (fun o => o.id == oid)).isSome := by
    rw [List.find?_isSome]
    exact ⟨o, ho, by simp [hid]⟩
  obtain ⟨w, hw⟩ := Option.isSome_iff_exists.mp hfind
  simp only [part001_verifyPayment, hw]
  refine ⟨?_, ?_, ?_⟩
  · intro q hq hqid
    obtain ⟨p, hp, he⟩ := List.mem_map.mp hq
    by_cases hc : (p.order_id == oid) = true
    · rw [if_pos hc] at he
      subst he
      exact ⟨rfl, rfl⟩
    · rw [if_neg hc] at he
      subst he
      exact absurd (by simpa using hqid) hc
  · intro p hp hpid
    exact List.mem_map.mpr ⟨p, hp, by rw [if_pos (by simpa using hpid)]⟩
  · exact List.length_map _ _

/-- A second pending payment for the same order `o1`. -/
def paymentPendingO1b : PaymentRow :=
  { paymentPendingO1 with id := "p2", transaction_id := some "TXN-11-y" }

/-- A store where two payment rows reference order `o1`. -/
def dbTwoPayments : DB :=
  { products := [], orders := [orderPending],
    payments := [paymentPendingO1, paymentPendingO1b] }

/-- Witness for C10: on the concrete store with two payments for `o1`,
verification completes both of them. -/
theorem C10_verify_updates_all_matching_payments_witness :
    ({ paymentPendingO1 with status := "completed", verified_at := some 70 }
      ∈ (part001_verifyPayment dbTwoPayments "o1" 70).2.payments) ∧
    ({ paymentPendingO1b with status := "completed", verified_at := some 70 }
      ∈ (part001_verifyPayment dbTwoPayments "o1" 70).2.payments) :=
  ⟨(C10_verify_updates_all_matching_payments dbTwoPayments "o1" 70
      (by decide)).2.1 paymentPendingO1 (by decide) rfl,
    (C10_verify_updates_all_matching_payments dbTwoPayments "o1" 70
      (by decide)).2.1 paymentPendingO1b (by decide) rfl⟩

end KukuYetu
